import Mathlib

/-!
Verification of `usbtest.c`, a minimal libusb CDC-ACM client.

The program is a straight-line sequence of libusb calls followed by an
infinite write/read loop.  We embed it shallowly as a deterministic step
machine: the environment (the results that libusb returns for each call)
is an `Oracle`, the observable behaviour is a trace of `Event`s, and
`main` is the transition function `step` iterated from the initial state.
Machine integers are modelled as `Int`/`Nat`; the libusb return codes are
plain `Int`s (negative means error, exactly as the C code tests them).
-/

namespace UsbTest


/-- Value of `LIBUSB_ERROR_TIMEOUT` in libusb-1.0 (`libusb.h`). -/
def LIBUSB_ERROR_TIMEOUT : Int := -7

/-- `#define ACM_CTRL_DTR 0x01` (usbtest.c line 23). -/
def ACM_CTRL_DTR : Nat := 0x01

/-- `#define ACM_CTRL_RTS 0x02` (usbtest.c line 24). -/
def ACM_CTRL_RTS : Nat := 0x02

/-- `static int ep_in_addr = 0x82;` (usbtest.c line 31). -/
def ep_in_addr : Nat := 0x82

/-- `static int ep_out_addr = 0x02;` (usbtest.c line 32). -/
def ep_out_addr : Nat := 0x02

/-- Observable events of a run: every libusb call the program makes,
its console output, the in-memory store `buf[len] = 0`, and `sleep`. -/
inductive Event where
  | setOption
  | initLib
  | wrapSysDevice (fd : Int)
  | kernelDriverActive (ifNum : Nat)
  | detachKernelDriver (ifNum : Nat)
  | claimInterface (ifNum : Nat)
  | controlTransfer (bmRequestType bRequest wValue wIndex : Nat)
      (data : List Nat) (wLength : Nat) (timeout : Nat)
  | bulkOut (endpoint : Nat) (data : List Nat) (timeout : Nat)
  | bulkIn (endpoint size timeout : Nat)
  | bufStore (idx : Int)
  | releaseInterface (ifNum : Nat)
  | closeDevice
  | exitLib
  | printOut (s : String)
  | printErr (s : String)
  | sleepSec (secs : Nat)
  deriving DecidableEq, Repr

/-- The environment: the value each libusb call returns.  Calls inside the
transfer loop get one result per iteration index.  `readLen` is the
`actual_length` reported by the inbound bulk transfer. -/
structure Oracle where
  setOptionRet : Int
  initRet : Int
  wrapRet : Int
  kernelActiveRet : Nat → Int
  detachRet : Nat → Int
  claimRet : Nat → Int
  ctrlLineStateRet : Int
  ctrlLineEncodingRet : Int
  writeRet : Nat → Int
  readRet : Nat → Int
  readLen : Nat → Nat

/-- Result of `sscanf(s, "%d", &fd)` restricted to what the program uses:
`some fd` when the conversion succeeds (sscanf returns 1), `none` when it
fails (sscanf returns 0 or EOF).  `%d` skips leading whitespace, accepts an
optional sign, and needs at least one digit. -/
def sscanfD (s : String) : Option Int :=
  let cs := s.data.dropWhile Char.isWhitespace
  let signRest : Int × List Char :=
    match cs with
    | '-' :: r => (-1, r)
    | '+' :: r => (1, r)
    | r => (1, r)
  let ds := signRest.2.takeWhile Char.isDigit
  if ds.isEmpty then none
  else some (signRest.1 * (ds.foldl (fun a c => 10 * a + (c.toNat - 48)) 0 : Nat))

/-- `write_char` (usbtest.c lines 34-44): one single-byte bulk transfer to
`ep_out_addr` with no timeout; a negative result only logs to stderr.
`rc` is the value `libusb_bulk_transfer` returns.  The function yields the
events it produces. -/
def write_char (rc : Int) (c : Nat) : List Event :=
  [Event.bulkOut ep_out_addr [c] 0] ++
    (if rc < 0 then [Event.printErr "Error while sending char"] else [])

/-- `read_chars` (usbtest.c lines 46-63): one bulk transfer from
`ep_in_addr` with a 1000 ms timeout; a timeout prints a message and returns
-1, any other negative result logs to stderr and returns -1, otherwise the
returned value is `actual_length`.  `rc` and `actual_length` come from
`libusb_bulk_transfer`; the result is the event list and the C return value. -/
def read_chars (rc : Int) (actual_length : Nat) (size : Nat) : List Event × Int :=
  ([Event.bulkIn ep_in_addr size 1000] ++
     (if rc = LIBUSB_ERROR_TIMEOUT then [Event.printOut "timeout"]
      else if rc < 0 then [Event.printErr "Error while waiting for char"]
      else []),
   if rc = LIBUSB_ERROR_TIMEOUT then -1
   else if rc < 0 then -1
   else (actual_length : Int))

/-- `unsigned char encoding[] = { 0x00, 0xC2, 0x01, 0x00, 0x00, 0x00, 0x08 };`
(usbtest.c line 131). -/
def encoding : List Nat := [0x00, 0xC2, 0x01, 0x00, 0x00, 0x00, 0x08]

/-- One iteration of the `while(1)` loop (usbtest.c lines 145-151):
`write_char('t')`, `len = read_chars(buf, 64)`, `buf[len] = 0`, print the
buffer, `sleep(1)`.  `'t'` is 116. -/
def iterEvents (o : Oracle) (i : Nat) : List Event :=
  write_char (o.writeRet i) 116 ++
  (read_chars (o.readRet i) (o.readLen i) 64).1 ++
  [Event.bufStore (read_chars (o.readRet i) (o.readLen i) 64).2] ++
  [Event.printOut "Received"] ++
  [Event.sleepSec 1]

/-- Events of one pass of the claim loop body for interface `i`
(usbtest.c lines 105-108 up to the claim call): query the kernel driver,
detach it when the query is nonzero (the detach result is ignored), then
claim the interface. -/
def claimEvents (o : Oracle) (i : Nat) : List Event :=
  [Event.kernelDriverActive i] ++
    (if o.kernelActiveRet i ≠ 0 then [Event.detachKernelDriver i] else []) ++
    [Event.claimInterface i]

/-- Program counter of `main`: one location per statement group of the C
source, in source order.  `afterLoop` is the `libusb_release_interface`
call on line 153, `out` the cleanup label on line 155, `done c` a process
exit with status `c`, and `ub` undefined behaviour (the `sscanf` call
dereferencing the null `argv[argc]`). -/
inductive PC where
  | argCheck
  | setOpt
  | initStep
  | wrap
  | claim (ifNum : Nat)
  | ctrlLineState
  | ctrlLineEncoding
  | loop (i : Nat)
  | afterLoop
  | out
  | done (code : Int)
  | ub
  deriving DecidableEq, Repr

/-- Machine state: program counter, emitted events so far, the locals
`fd` and `rc`, and whether the global `devh` is non-null (it is a global,
hence zero-initialised). -/
structure MState where
  pc : PC
  trace : List Event
  fd : Int
  rc : Int
  devh : Bool
  deriving DecidableEq, Repr

/-- Initial state of `main`. -/
def init0 : MState := ⟨PC.argCheck, [], 0, 0, false⟩

/-- One step of `main` (usbtest.c lines 65-162).  Each case is the direct
transcription of the corresponding statement group:

* `argCheck`: `if ((argc < 1) || (sscanf(argv[1], "%d", &fd) != 1))` —
  when `argc` is 1 the program reads `argv[1]`, which is the null
  terminator of the argument vector, so the `sscanf` call is undefined
  behaviour;
* `setOpt`/`initStep`: `libusb_set_option` / `libusb_init`, each exiting
  with status 1 on a negative result;
* `wrap`: `libusb_wrap_sys_device`, `goto out` on failure (with `devh`
  still null);
* `claim i`: one pass of the `for` loop over the two interfaces;
* `ctrlLineState` / `ctrlLineEncoding`: the two control transfers;
* `loop i`: one iteration of `while(1)`;
* `afterLoop`: the `libusb_release_interface(devh, 0)` after the loop;
* `out`: close `devh` when non-null, `libusb_exit`, `return rc`. -/
def step (argv : List String) (o : Oracle) (s : MState) : MState :=
  match s.pc with
  | .argCheck =>
    if argv.length < 1 then
      { s with pc := .done 1, trace := s.trace ++ [Event.printOut "usage"] }
    else
      match argv[1]? with
      | none => { s with pc := .ub }
      | some a =>
        match sscanfD a with
        | none => { s with pc := .done 1, trace := s.trace ++ [Event.printOut "usage"] }
        | some fd => { s with pc := .setOpt, fd := fd }
  | .setOpt =>
    let t := s.trace ++ [Event.setOption]
    if o.setOptionRet < 0 then
      { s with pc := .done 1, trace := t ++ [Event.printErr "Error setting libusb option"] }
    else { s with pc := .initStep, trace := t }
  | .initStep =>
    let t := s.trace ++ [Event.initLib]
    if o.initRet < 0 then
      { s with pc := .done 1, trace := t ++ [Event.printErr "Error initializing libusb"] }
    else { s with pc := .wrap, trace := t }
  | .wrap =>
    let t := s.trace ++ [Event.wrapSysDevice s.fd]
    if o.wrapRet < 0 then
      { s with
        pc := .out, rc := o.wrapRet,
        trace := t ++ [Event.printErr "Error wrapping file descriptor"] }
    else { s with pc := .claim 0, rc := o.wrapRet, devh := true, trace := t }
  | .claim i =>
    let t := s.trace ++ claimEvents o i
    if o.claimRet i < 0 then
      { s with
        pc := .out, rc := o.claimRet i,
        trace := t ++ [Event.printErr "Error claiming interface"] }
    else if i = 0 then { s with pc := .claim 1, rc := o.claimRet i, trace := t }
    else { s with pc := .ctrlLineState, rc := o.claimRet i, trace := t }
  | .ctrlLineState =>
    let t := s.trace ++
      [Event.controlTransfer 0x21 0x22 (ACM_CTRL_DTR ||| ACM_CTRL_RTS) 0 [] 0 0]
    if o.ctrlLineStateRet < 0 then
      { s with
        pc := .out, rc := o.ctrlLineStateRet,
        trace := t ++ [Event.printErr "Error during control transfer"] }
    else { s with pc := .ctrlLineEncoding, rc := o.ctrlLineStateRet, trace := t }
  | .ctrlLineEncoding =>
    let t := s.trace ++ [Event.controlTransfer 0x21 0x20 0 0 encoding 7 0]
    if o.ctrlLineEncodingRet < 0 then
      { s with
        pc := .out, rc := o.ctrlLineEncodingRet,
        trace := t ++ [Event.printErr "Error during control transfer"] }
    else { s with pc := .loop 0, rc := o.ctrlLineEncodingRet, trace := t }
  | .loop i => { s with pc := .loop (i + 1), trace := s.trace ++ iterEvents o i }
  | .afterLoop => { s with pc := .out, trace := s.trace ++ [Event.releaseInterface 0] }
  | .out =>
    { s with
      pc := .done s.rc,
      trace := s.trace ++ (if s.devh then [Event.closeDevice] else []) ++ [Event.exitLib] }
  | .done _ => s
  | .ub => s

/-- The machine after `n` steps from the start of `main`. -/
def run (argv : List String) (o : Oracle) : Nat → MState
  | 0 => init0
  | n + 1 => step argv o (run argv o n)

/-- Little-endian byte decomposition of a 32-bit value, as the spec
describes the first four payload bytes.  This is the spec-side layout
definition, to be compared with the hard-coded `encoding` array. -/
def leBytes32 (b : Nat) : List Nat :=
  [b % 256, b / 256 % 256, b / 256 ^ 2 % 256, b / 256 ^ 3 % 256]

/-- The spec-side 7-byte line-encoding payload layout:
baud as little-endian 32-bit, then stop-bits byte (CDC bCharFormat,
0 encodes 1 stop bit), parity byte, data-bits byte. -/
def lineEncodingSpec (baud bCharFormat bParityType bDataBits : Nat) : List Nat :=
  leBytes32 baud ++ [bCharFormat, bParityType, bDataBits]

/-- Trace of the first `i` iterations of the transfer loop. -/
def loopTrace (o : Oracle) : Nat → List Event
  | 0 => []
  | i + 1 => loopTrace o i ++ iterEvents o i

/-- Full trace of a successful setup: the libusb calls of `main` from
`libusb_set_option` up to and including the line-encoding transfer. -/
def setupTrace (o : Oracle) (fd : Int) : List Event :=
  [Event.setOption, Event.initLib, Event.wrapSysDevice fd] ++
  claimEvents o 0 ++ claimEvents o 1 ++
  [Event.controlTransfer 0x21 0x22 3 0 [] 0 0,
   Event.controlTransfer 0x21 0x20 0 0 encoding 7 0]

/-- Recognises control-transfer events. -/
def Event.isCtrl : Event → Bool
  | .controlTransfer _ _ _ _ _ _ _ => true
  | _ => false

/-- Recognises interface-claim events. -/
def Event.isClaim : Event → Bool
  | .claimInterface _ => true
  | _ => false

/-- Recognises bulk-transfer events (either direction). -/
def Event.isBulk : Event → Bool
  | .bulkOut _ _ _ => true
  | .bulkIn _ _ _ => true
  | _ => false

/-- An all-successful environment: every call returns 0, reads see 0 bytes. -/
def oracle0 : Oracle :=
  ⟨0, 0, 0, fun _ => 0, fun _ => 0, fun _ => 0, 0, 0, fun _ => 0, fun _ => 0, fun _ => 0⟩

/-- A well-formed command line: program name and a numeric fd argument. -/
def argv0 : List String := ["./usbtest", "5"]

/-- Invariant for the unreachable-release argument: the post-loop release
statement is never the current program point, no release event was ever
emitted, the cleanup label is only reached with a negative `rc`, and the
device is closed only when the machine has exited with that negative `rc`. -/
def Inv (s : MState) : Prop :=
  s.pc ≠ PC.afterLoop ∧
  (∀ i, Event.releaseInterface i ∉ s.trace) ∧
  (s.pc = PC.out → s.rc < 0) ∧
  (Event.closeDevice ∈ s.trace → s.pc = PC.done s.rc ∧ s.rc < 0)

/-- Environment in which `libusb_set_option` fails with code -99. -/
def oracleBadOpt : Oracle := { oracle0 with setOptionRet := -99 }

/-- Environment in which every inbound bulk transfer times out. -/
def oracleTimeout : Oracle := { oracle0 with readRet := fun _ => LIBUSB_ERROR_TIMEOUT }

/-- Environment in which claiming any interface fails with code -5. -/
def oracleClaimFail : Oracle := { oracle0 with claimRet := fun _ => -5 }

theorem dtr_rts_value : ACM_CTRL_DTR ||| ACM_CTRL_RTS = 3 := by decide

theorem step_done (argv : List String) (o : Oracle) (s : MState) (c : Int)
    (h : s.pc = PC.done c) : step argv o s = s := by
  simp [step, h]

theorem step_ub (argv : List String) (o : Oracle) (s : MState)
    (h : s.pc = PC.ub) : step argv o s = s := by
  simp [step, h]

theorem run_done_absorb (argv : List String) (o : Oracle) (n : Nat) (c : Int)
    (h : (run argv o n).pc = PC.done c) :
    ∀ m, run argv o (n + m) = run argv o n := by
  intro m
  induction m with
  | zero => rfl
  | succ m ih =>
    show step argv o (run argv o (n + m)) = _
    rw [ih]
    exact step_done argv o _ c h

theorem step_trace_grows (argv : List String) (o : Oracle) (s : MState) :
    s.trace <+: (step argv o s).trace := by
  cases hpc : s.pc <;> simp only [step, hpc] <;>
    (repeat' split) <;>
    (try simp only [List.append_assoc]) <;>
    first
      | exact List.prefix_rfl
      | exact List.prefix_append _ _

theorem run_trace_grows (argv : List String) (o : Oracle) {m n : Nat}
    (h : m ≤ n) : (run argv o m).trace <+: (run argv o n).trace := by
  induction h with
  | refl => exact List.prefix_rfl
  | step _ ih => exact ih.trans (step_trace_grows argv o _)

theorem event_never (argv : List String) (o : Oracle) (n₀ : Nat) (c : Int)
    (hdone : (run argv o n₀).pc = PC.done c) {e : Event}
    (he : e ∉ (run argv o n₀).trace) : ∀ n, e ∉ (run argv o n).trace := by
  intro n hmem
  rcases Nat.le_total n n₀ with h | h
  · exact he ((run_trace_grows argv o h).subset hmem)
  · obtain ⟨m, rfl⟩ := Nat.exists_eq_add_of_le h
    rw [run_done_absorb argv o n₀ c hdone m] at hmem
    exact he hmem

theorem run_one (argv : List String) (o : Oracle) {a : String} {fd : Int}
    (h1 : argv[1]? = some a) (h2 : sscanfD a = some fd) :
    run argv o 1 = ⟨PC.setOpt, [], fd, 0, false⟩ := by
  have hlen : ¬ argv.length < 1 := by
    cases argv with
    | nil => simp at h1
    | cons x xs => simp
  show step argv o init0 = _
  simp [step, init0, hlen, h1, h2]

theorem run_two (argv : List String) (o : Oracle) {a : String} {fd : Int}
    (h1 : argv[1]? = some a) (h2 : sscanfD a = some fd)
    (h3 : 0 ≤ o.setOptionRet) :
    run argv o 2 = ⟨PC.initStep, [Event.setOption], fd, 0, false⟩ := by
  show step argv o (run argv o 1) = _
  rw [run_one argv o h1 h2]
  simp [step, Int.not_lt.mpr h3]

theorem run_three (argv : List String) (o : Oracle) {a : String} {fd : Int}
    (h1 : argv[1]? = some a) (h2 : sscanfD a = some fd)
    (h3 : 0 ≤ o.setOptionRet) (h4 : 0 ≤ o.initRet) :
    run argv o 3 = ⟨PC.wrap, [Event.setOption, Event.initLib], fd, 0, false⟩ := by
  show step argv o (run argv o 2) = _
  rw [run_two argv o h1 h2 h3]
  simp [step, Int.not_lt.mpr h4]

theorem run_four (argv : List String) (o : Oracle) {a : String} {fd : Int}
    (h1 : argv[1]? = some a) (h2 : sscanfD a = some fd)
    (h3 : 0 ≤ o.setOptionRet) (h4 : 0 ≤ o.initRet) (h5 : 0 ≤ o.wrapRet) :
    run argv o 4 = ⟨PC.claim 0,
      [Event.setOption, Event.initLib, Event.wrapSysDevice fd], fd, o.wrapRet, true⟩ := by
  show step argv o (run argv o 3) = _
  rw [run_three argv o h1 h2 h3 h4]
  simp [step, Int.not_lt.mpr h5]

theorem run_five (argv : List String) (o : Oracle) {a : String} {fd : Int}
    (h1 : argv[1]? = some a) (h2 : sscanfD a = some fd)
    (h3 : 0 ≤ o.setOptionRet) (h4 : 0 ≤ o.initRet) (h5 : 0 ≤ o.wrapRet)
    (h6 : 0 ≤ o.claimRet 0) :
    run argv o 5 = ⟨PC.claim 1,
      [Event.setOption, Event.initLib, Event.wrapSysDevice fd] ++ claimEvents o 0,
      fd, o.claimRet 0, true⟩ := by
  show step argv o (run argv o 4) = _
  rw [run_four argv o h1 h2 h3 h4 h5]
  simp [step, Int.not_lt.mpr h6]

theorem run_six (argv : List String) (o : Oracle) {a : String} {fd : Int}
    (h1 : argv[1]? = some a) (h2 : sscanfD a = some fd)
    (h3 : 0 ≤ o.setOptionRet) (h4 : 0 ≤ o.initRet) (h5 : 0 ≤ o.wrapRet)
    (h6 : 0 ≤ o.claimRet 0) (h7 : 0 ≤ o.claimRet 1) :
    run argv o 6 = ⟨PC.ctrlLineState,
      [Event.setOption, Event.initLib, Event.wrapSysDevice fd] ++
        claimEvents o 0 ++ claimEvents o 1,
      fd, o.claimRet 1, true⟩ := by
  show step argv o (run argv o 5) = _
  rw [run_five argv o h1 h2 h3 h4 h5 h6]
  simp [step, Int.not_lt.mpr h7]

theorem run_seven (argv : List String) (o : Oracle) {a : String} {fd : Int}
    (h1 : argv[1]? = some a) (h2 : sscanfD a = some fd)
    (h3 : 0 ≤ o.setOptionRet) (h4 : 0 ≤ o.initRet) (h5 : 0 ≤ o.wrapRet)
    (h6 : 0 ≤ o.claimRet 0) (h7 : 0 ≤ o.claimRet 1)
    (h8 : 0 ≤ o.ctrlLineStateRet) :
    run argv o 7 = ⟨PC.ctrlLineEncoding,
      [Event.setOption, Event.initLib, Event.wrapSysDevice fd] ++
        claimEvents o 0 ++ claimEvents o 1 ++
        [Event.controlTransfer 0x21 0x22 3 0 [] 0 0],
      fd, o.ctrlLineStateRet, true⟩ := by
  show step argv o (run argv o 6) = _
  rw [run_six argv o h1 h2 h3 h4 h5 h6 h7]
  simp [step, Int.not_lt.mpr h8, dtr_rts_value]

theorem run_eight (argv : List String) (o : Oracle) {a : String} {fd : Int}
    (h1 : argv[1]? = some a) (h2 : sscanfD a = some fd)
    (h3 : 0 ≤ o.setOptionRet) (h4 : 0 ≤ o.initRet) (h5 : 0 ≤ o.wrapRet)
    (h6 : 0 ≤ o.claimRet 0) (h7 : 0 ≤ o.claimRet 1)
    (h8 : 0 ≤ o.ctrlLineStateRet) (h9 : 0 ≤ o.ctrlLineEncodingRet) :
    run argv o 8 = ⟨PC.loop 0, setupTrace o fd, fd, o.ctrlLineEncodingRet, true⟩ := by
  show step argv o (run argv o 7) = _
  rw [run_seven argv o h1 h2 h3 h4 h5 h6 h7 h8]
  simp [step, Int.not_lt.mpr h9, setupTrace]

theorem run_loop_state (argv : List String) (o : Oracle) {a : String} {fd : Int}
    (h1 : argv[1]? = some a) (h2 : sscanfD a = some fd)
    (h3 : 0 ≤ o.setOptionRet) (h4 : 0 ≤ o.initRet) (h5 : 0 ≤ o.wrapRet)
    (h6 : 0 ≤ o.claimRet 0) (h7 : 0 ≤ o.claimRet 1)
    (h8 : 0 ≤ o.ctrlLineStateRet) (h9 : 0 ≤ o.ctrlLineEncodingRet) :
    ∀ i, run argv o (8 + i) =
      ⟨PC.loop i, setupTrace o fd ++ loopTrace o i, fd, o.ctrlLineEncodingRet, true⟩ := by
  intro i
  induction i with
  | zero =>
    simpa [loopTrace] using run_eight argv o h1 h2 h3 h4 h5 h6 h7 h8 h9
  | succ i ih =>
    show step argv o (run argv o (8 + i)) = _
    rw [ih]
    simp [step, loopTrace]

theorem claimEvents_filter_ctrl (o : Oracle) (i : Nat) :
    (claimEvents o i).filter Event.isCtrl = [] := by
  unfold claimEvents
  split <;> rfl

theorem claimEvents_filter_bulk (o : Oracle) (i : Nat) :
    (claimEvents o i).filter Event.isBulk = [] := by
  unfold claimEvents
  split <;> rfl

theorem iter_filter_bulk (o : Oracle) (i : Nat) :
    (iterEvents o i).filter Event.isBulk =
      [Event.bulkOut ep_out_addr [116] 0, Event.bulkIn ep_in_addr 64 1000] := by
  unfold iterEvents write_char read_chars
  split_ifs <;> rfl

theorem release_not_in_claimEvents (o : Oracle) (i j : Nat) :
    Event.releaseInterface j ∉ claimEvents o i := by
  unfold claimEvents
  split <;> simp

theorem close_not_in_claimEvents (o : Oracle) (i : Nat) :
    Event.closeDevice ∉ claimEvents o i := by
  unfold claimEvents
  split <;> simp

theorem release_not_in_iter (o : Oracle) (i j : Nat) :
    Event.releaseInterface j ∉ iterEvents o i := by
  unfold iterEvents write_char read_chars
  split_ifs <;> simp

theorem close_not_in_iter (o : Oracle) (i : Nat) :
    Event.closeDevice ∉ iterEvents o i := by
  unfold iterEvents write_char read_chars
  split_ifs <;> simp

theorem run_four_wrapFail (argv : List String) (o : Oracle) {a : String} {fd : Int}
    (h1 : argv[1]? = some a) (h2 : sscanfD a = some fd)
    (h3 : 0 ≤ o.setOptionRet) (h4 : 0 ≤ o.initRet) (h5 : o.wrapRet < 0) :
    run argv o 4 = ⟨PC.out,
      [Event.setOption, Event.initLib, Event.wrapSysDevice fd,
       Event.printErr "Error wrapping file descriptor"], fd, o.wrapRet, false⟩ := by
  show step argv o (run argv o 3) = _
  rw [run_three argv o h1 h2 h3 h4]
  simp [step, h5]

theorem run_five_wrapFail (argv : List String) (o : Oracle) {a : String} {fd : Int}
    (h1 : argv[1]? = some a) (h2 : sscanfD a = some fd)
    (h3 : 0 ≤ o.setOptionRet) (h4 : 0 ≤ o.initRet) (h5 : o.wrapRet < 0) :
    run argv o 5 = ⟨PC.done o.wrapRet,
      [Event.setOption, Event.initLib, Event.wrapSysDevice fd,
       Event.printErr "Error wrapping file descriptor", Event.exitLib],
      fd, o.wrapRet, false⟩ := by
  show step argv o (run argv o 4) = _
  rw [run_four_wrapFail argv o h1 h2 h3 h4 h5]
  simp [step]

theorem run_five_claimFail0 (argv : List String) (o : Oracle) {a : String} {fd : Int}
    (h1 : argv[1]? = some a) (h2 : sscanfD a = some fd)
    (h3 : 0 ≤ o.setOptionRet) (h4 : 0 ≤ o.initRet) (h5 : 0 ≤ o.wrapRet)
    (h6 : o.claimRet 0 < 0) :
    run argv o 5 = ⟨PC.out,
      [Event.setOption, Event.initLib, Event.wrapSysDevice fd] ++ claimEvents o 0 ++
        [Event.printErr "Error claiming interface"],
      fd, o.claimRet 0, true⟩ := by
  show step argv o (run argv o 4) = _
  rw [run_four argv o h1 h2 h3 h4 h5]
  simp [step, h6]

theorem run_six_claimFail0 (argv : List String) (o : Oracle) {a : String} {fd : Int}
    (h1 : argv[1]? = some a) (h2 : sscanfD a = some fd)
    (h3 : 0 ≤ o.setOptionRet) (h4 : 0 ≤ o.initRet) (h5 : 0 ≤ o.wrapRet)
    (h6 : o.claimRet 0 < 0) :
    run argv o 6 = ⟨PC.done (o.claimRet 0),
      [Event.setOption, Event.initLib, Event.wrapSysDevice fd] ++ claimEvents o 0 ++
        [Event.printErr "Error claiming interface", Event.closeDevice, Event.exitLib],
      fd, o.claimRet 0, true⟩ := by
  show step argv o (run argv o 5) = _
  rw [run_five_claimFail0 argv o h1 h2 h3 h4 h5 h6]
  simp [step]

theorem run_six_claimFail1 (argv : List String) (o : Oracle) {a : String} {fd : Int}
    (h1 : argv[1]? = some a) (h2 : sscanfD a = some fd)
    (h3 : 0 ≤ o.setOptionRet) (h4 : 0 ≤ o.initRet) (h5 : 0 ≤ o.wrapRet)
    (h6 : 0 ≤ o.claimRet 0) (h7 : o.claimRet 1 < 0) :
    run argv o 6 = ⟨PC.out,
      [Event.setOption, Event.initLib, Event.wrapSysDevice fd] ++ claimEvents o 0 ++
        claimEvents o 1 ++ [Event.printErr "Error claiming interface"],
      fd, o.claimRet 1, true⟩ := by
  show step argv o (run argv o 5) = _
  rw [run_five argv o h1 h2 h3 h4 h5 h6]
  simp [step, h7]

theorem run_seven_claimFail1 (argv : List String) (o : Oracle) {a : String} {fd : Int}
    (h1 : argv[1]? = some a) (h2 : sscanfD a = some fd)
    (h3 : 0 ≤ o.setOptionRet) (h4 : 0 ≤ o.initRet) (h5 : 0 ≤ o.wrapRet)
    (h6 : 0 ≤ o.claimRet 0) (h7 : o.claimRet 1 < 0) :
    run argv o 7 = ⟨PC.done (o.claimRet 1),
      [Event.setOption, Event.initLib, Event.wrapSysDevice fd] ++ claimEvents o 0 ++
        claimEvents o 1 ++
        [Event.printErr "Error claiming interface", Event.closeDevice, Event.exitLib],
      fd, o.claimRet 1, true⟩ := by
  show step argv o (run argv o 6) = _
  rw [run_six_claimFail1 argv o h1 h2 h3 h4 h5 h6 h7]
  simp [step]

theorem run_seven_stateFail (argv : List String) (o : Oracle) {a : String} {fd : Int}
    (h1 : argv[1]? = some a) (h2 : sscanfD a = some fd)
    (h3 : 0 ≤ o.setOptionRet) (h4 : 0 ≤ o.initRet) (h5 : 0 ≤ o.wrapRet)
    (h6 : 0 ≤ o.claimRet 0) (h7 : 0 ≤ o.claimRet 1) (h8 : o.ctrlLineStateRet < 0) :
    run argv o 7 = ⟨PC.out,
      [Event.setOption, Event.initLib, Event.wrapSysDevice fd] ++ claimEvents o 0 ++
        claimEvents o 1 ++
        [Event.controlTransfer 0x21 0x22 3 0 [] 0 0,
         Event.printErr "Error during control transfer"],
      fd, o.ctrlLineStateRet, true⟩ := by
  show step argv o (run argv o 6) = _
  rw [run_six argv o h1 h2 h3 h4 h5 h6 h7]
  simp [step, h8, dtr_rts_value]

theorem run_eight_stateFail (argv : List String) (o : Oracle) {a : String} {fd : Int}
    (h1 : argv[1]? = some a) (h2 : sscanfD a = some fd)
    (h3 : 0 ≤ o.setOptionRet) (h4 : 0 ≤ o.initRet) (h5 : 0 ≤ o.wrapRet)
    (h6 : 0 ≤ o.claimRet 0) (h7 : 0 ≤ o.claimRet 1) (h8 : o.ctrlLineStateRet < 0) :
    run argv o 8 = ⟨PC.done o.ctrlLineStateRet,
      [Event.setOption, Event.initLib, Event.wrapSysDevice fd] ++ claimEvents o 0 ++
        claimEvents o 1 ++
        [Event.controlTransfer 0x21 0x22 3 0 [] 0 0,
         Event.printErr "Error during control transfer", Event.closeDevice, Event.exitLib],
      fd, o.ctrlLineStateRet, true⟩ := by
  show step argv o (run argv o 7) = _
  rw [run_seven_stateFail argv o h1 h2 h3 h4 h5 h6 h7 h8]
  simp [step]

theorem run_eight_encFail (argv : List String) (o : Oracle) {a : String} {fd : Int}
    (h1 : argv[1]? = some a) (h2 : sscanfD a = some fd)
    (h3 : 0 ≤ o.setOptionRet) (h4 : 0 ≤ o.initRet) (h5 : 0 ≤ o.wrapRet)
    (h6 : 0 ≤ o.claimRet 0) (h7 : 0 ≤ o.claimRet 1) (h8 : 0 ≤ o.ctrlLineStateRet)
    (h9 : o.ctrlLineEncodingRet < 0) :
    run argv o 8 = ⟨PC.out,
      [Event.setOption, Event.initLib, Event.wrapSysDevice fd] ++ claimEvents o 0 ++
        claimEvents o 1 ++
        [Event.controlTransfer 0x21 0x22 3 0 [] 0 0,
         Event.controlTransfer 0x21 0x20 0 0 encoding 7 0,
         Event.printErr "Error during control transfer"],
      fd, o.ctrlLineEncodingRet, true⟩ := by
  show step argv o (run argv o 7) = _
  rw [run_seven argv o h1 h2 h3 h4 h5 h6 h7 h8]
  simp [step, h9]

theorem run_nine_encFail (argv : List String) (o : Oracle) {a : String} {fd : Int}
    (h1 : argv[1]? = some a) (h2 : sscanfD a = some fd)
    (h3 : 0 ≤ o.setOptionRet) (h4 : 0 ≤ o.initRet) (h5 : 0 ≤ o.wrapRet)
    (h6 : 0 ≤ o.claimRet 0) (h7 : 0 ≤ o.claimRet 1) (h8 : 0 ≤ o.ctrlLineStateRet)
    (h9 : o.ctrlLineEncodingRet < 0) :
    run argv o 9 = ⟨PC.done o.ctrlLineEncodingRet,
      [Event.setOption, Event.initLib, Event.wrapSysDevice fd] ++ claimEvents o 0 ++
        claimEvents o 1 ++
        [Event.controlTransfer 0x21 0x22 3 0 [] 0 0,
         Event.controlTransfer 0x21 0x20 0 0 encoding 7 0,
         Event.printErr "Error during control transfer", Event.closeDevice, Event.exitLib],
      fd, o.ctrlLineEncodingRet, true⟩ := by
  show step argv o (run argv o 8) = _
  rw [run_eight_encFail argv o h1 h2 h3 h4 h5 h6 h7 h8 h9]
  simp [step]

theorem filter_never (argv : List String) (o : Oracle) (n₀ : Nat) (c : Int)
    (hdone : (run argv o n₀).pc = PC.done c) (p : Event → Bool)
    (hp : (run argv o n₀).trace.filter p = []) :
    ∀ n, (run argv o n).trace.filter p = [] := by
  intro n
  rcases Nat.le_total n n₀ with h | h
  · have hsub := ((run_trace_grows argv o h).sublist).filter p
    rw [hp] at hsub
    exact List.sublist_nil.mp hsub
  · obtain ⟨m, rfl⟩ := Nat.exists_eq_add_of_le h
    rw [run_done_absorb argv o n₀ c hdone m, hp]

theorem run_ub_absorb (argv : List String) (o : Oracle) (n : Nat)
    (h : (run argv o n).pc = PC.ub) :
    ∀ m, run argv o (n + m) = run argv o n := by
  intro m
  induction m with
  | zero => rfl
  | succ m ih =>
    show step argv o (run argv o (n + m)) = _
    rw [ih]
    exact step_ub argv o _ h

theorem step_detach_irrel (argv : List String) (o : Oracle) (d : Nat → Int)
    (s : MState) : step argv { o with detachRet := d } s = step argv o s := by
  obtain ⟨pc, tr, fd, rc, dv⟩ := s
  cases pc <;> rfl

theorem inv_init : Inv init0 := by
  refine ⟨by simp [init0], by simp [init0], by simp [init0], by simp [init0]⟩

theorem inv_step (argv : List String) (o : Oracle) (s : MState) (h : Inv s) :
    Inv (step argv o s) := by
  obtain ⟨hA, hR, hO, hC⟩ := h
  obtain ⟨pc, tr, fd, rc, dv⟩ := s
  cases pc
  case argCheck =>
    have hnc : Event.closeDevice ∉ tr := fun hm => by simpa using (hC hm).1
    simp only [step]
    split
    · exact ⟨by simp, by simp [hR], by simp, by simp [hnc]⟩
    · split
      · exact ⟨by simp, by simp [hR], by simp, fun hm => by simp at hm; exact absurd hm hnc⟩
      · split
        · exact ⟨by simp, by simp [hR], by simp, by simp [hnc]⟩
        · exact ⟨by simp, by simp [hR], by simp, fun hm => by simp at hm; exact absurd hm hnc⟩
  case setOpt =>
    have hnc : Event.closeDevice ∉ tr := fun hm => by simpa using (hC hm).1
    simp only [step]
    split
    · exact ⟨by simp, by simp [hR], by simp, by simp [hnc]⟩
    · exact ⟨by simp, by simp [hR], by simp, by simp [hnc]⟩
  case initStep =>
    have hnc : Event.closeDevice ∉ tr := fun hm => by simpa using (hC hm).1
    simp only [step]
    split
    · exact ⟨by simp, by simp [hR], by simp, by simp [hnc]⟩
    · exact ⟨by simp, by simp [hR], by simp, by simp [hnc]⟩
  case wrap =>
    have hnc : Event.closeDevice ∉ tr := fun hm => by simpa using (hC hm).1
    simp only [step]
    split
    case isTrue hlt => exact ⟨by simp, by simp [hR], fun _ => hlt, by simp [hnc]⟩
    case isFalse => exact ⟨by simp, by simp [hR], by simp, by simp [hnc]⟩
  case claim i =>
    have hnc : Event.closeDevice ∉ tr := fun hm => by simpa using (hC hm).1
    simp only [step]
    split
    case isTrue hlt =>
      exact ⟨by simp, by simp [hR, release_not_in_claimEvents],
        fun _ => hlt, by simp [hnc, close_not_in_claimEvents]⟩
    case isFalse =>
      split
      · exact ⟨by simp, by simp [hR, release_not_in_claimEvents], by simp,
          by simp [hnc, close_not_in_claimEvents]⟩
      · exact ⟨by simp, by simp [hR, release_not_in_claimEvents], by simp,
          by simp [hnc, close_not_in_claimEvents]⟩
  case ctrlLineState =>
    have hnc : Event.closeDevice ∉ tr := fun hm => by simpa using (hC hm).1
    simp only [step]
    split
    case isTrue hlt => exact ⟨by simp, by simp [hR], fun _ => hlt, by simp [hnc]⟩
    case isFalse => exact ⟨by simp, by simp [hR], by simp, by simp [hnc]⟩
  case ctrlLineEncoding =>
    have hnc : Event.closeDevice ∉ tr := fun hm => by simpa using (hC hm).1
    simp only [step]
    split
    case isTrue hlt => exact ⟨by simp, by simp [hR], fun _ => hlt, by simp [hnc]⟩
    case isFalse => exact ⟨by simp, by simp [hR], by simp, by simp [hnc]⟩
  case loop i =>
    have hnc : Event.closeDevice ∉ tr := fun hm => by simpa using (hC hm).1
    exact ⟨by simp [step], by simp [step, hR, release_not_in_iter],
      by simp [step], by simp [step, hnc, close_not_in_iter]⟩
  case afterLoop => exact absurd rfl hA
  case out =>
    have hrc : rc < 0 := hO rfl
    refine ⟨by simp [step], by simp [step, hR], by simp [step], ?_⟩
    intro _
    exact ⟨by simp [step], hrc⟩
  case done c => exact ⟨hA, hR, hO, hC⟩
  case ub => exact ⟨hA, hR, hO, hC⟩

theorem inv_run (argv : List String) (o : Oracle) (n : Nat) : Inv (run argv o n) := by
  induction n with
  | zero => exact inv_init
  | succ n ih => exact inv_step argv o _ ih

theorem not_lt_one_of_get1 {argv : List String} {a : String}
    (h : argv[1]? = some a) : ¬ argv.length < 1 := by
  cases argv with
  | nil => simp at h
  | cons x xs => simp

theorem claim_mem_claimEvents (o : Oracle) (i : Nat) :
    Event.claimInterface i ∈ claimEvents o i := by
  unfold claimEvents
  split <;> simp

theorem detach_mem_claimEvents (o : Oracle) (i : Nat)
    (h : o.kernelActiveRet i ≠ 0) :
    Event.detachKernelDriver i ∈ claimEvents o i := by
  unfold claimEvents
  simp [h]

theorem enc_not_in_claimEvents (o : Oracle) (i : Nat) :
    Event.controlTransfer 0x21 0x20 0 0 encoding 7 0 ∉ claimEvents o i := by
  unfold claimEvents
  split <;> simp

theorem iter_filter_ctrl (o : Oracle) (i : Nat) :
    (iterEvents o i).filter Event.isCtrl = [] := by
  unfold iterEvents write_char read_chars
  split_ifs <;> rfl

theorem loopTrace_filter_ctrl (o : Oracle) (i : Nat) :
    (loopTrace o i).filter Event.isCtrl = [] := by
  induction i with
  | zero => rfl
  | succ i ih => simp [loopTrace, List.filter_append, ih, iter_filter_ctrl]

/-- C1: the spec claims that a missing fd argument (as well as a
non-numeric one) prints a usage message and exits with status 1 with no
USB call.  On the code, an invocation with no argument has `argc = 1`, the
guard `argc < 1` is false, and the program calls `sscanf(argv[1], ...)` on
the null terminator of the argument vector: undefined behaviour.  The
machine reaches the `ub` state with an empty trace, never prints usage and
never exits.  (The non-numeric half does hold: last conjunct.) -/
theorem missing_fd_argument_is_undefined_behaviour :
    (run ["./usbtest"] oracle0 1).pc = PC.ub ∧
    (∀ n, (run ["./usbtest"] oracle0 n).trace = []) ∧
    (∀ n c, (run ["./usbtest"] oracle0 n).pc ≠ PC.done c) ∧
    (run ["./usbtest", "x"] oracle0 1).pc = PC.done 1 ∧
    Event.printOut "usage" ∈ (run ["./usbtest", "x"] oracle0 1).trace := by
  have hub : run ["./usbtest"] oracle0 1 = ⟨PC.ub, [], 0, 0, false⟩ := by rfl
  have habs := run_ub_absorb ["./usbtest"] oracle0 1 (by rw [hub])
  refine ⟨by rw [hub], ?_, ?_, by rfl, by decide⟩
  · intro n
    match n with
    | 0 => rfl
    | n + 1 =>
      rw [show n + 1 = 1 + n from Nat.add_comm n 1, habs n, hub]
  · intro n c
    match n with
    | 0 => simp [run, init0]
    | n + 1 =>
      rw [show n + 1 = 1 + n from Nat.add_comm n 1, habs n, hub]
      simp

/-- C2: the line-encoding control transfer carries request type 0x21,
request 0x20, value 0, index 0 and the 7-byte payload; the payload is the
spec layout [baud LE32][stop bits][parity][data bits] at 115200-8N1
(stop-bits byte 0 is the CDC encoding of 1 stop bit), equals the bytes
00 C2 01 00 00 00 08, the little-endian encoding is correct for every baud
below 2^32 = 4294967296 (and in particular 9600 gives 80 25 00 00), and a
successful setup emits exactly that transfer. -/
theorem line_encoding_transfer_payload :
    encoding = lineEncodingSpec 115200 0 0 8 ∧
    encoding = [0x00, 0xC2, 0x01, 0x00, 0x00, 0x00, 0x08] ∧
    leBytes32 9600 = [0x80, 0x25, 0x00, 0x00] ∧
    (∀ b : Nat, b < 4294967296 →
      (lineEncodingSpec b 0 0 8).take 4 = leBytes32 b ∧
      (leBytes32 b).length = 4 ∧ (∀ x ∈ leBytes32 b, x < 256) ∧
      (leBytes32 b).foldr (fun x a => x + 256 * a) 0 = b) ∧
    (∀ (argv : List String) (o : Oracle) (a : String) (fd : Int),
      argv[1]? = some a → sscanfD a = some fd →
      0 ≤ o.setOptionRet → 0 ≤ o.initRet → 0 ≤ o.wrapRet →
      0 ≤ o.claimRet 0 → 0 ≤ o.claimRet 1 → 0 ≤ o.ctrlLineStateRet →
      0 ≤ o.ctrlLineEncodingRet →
      Event.controlTransfer 0x21 0x20 0 0 encoding 7 0 ∈ (run argv o 8).trace) := by
  refine ⟨by decide, by decide, by decide, ?_, ?_⟩
  · intro b hb
    refine ⟨by simp [lineEncodingSpec, leBytes32], rfl, ?_, ?_⟩
    · intro x hx
      simp [leBytes32] at hx
      rcases hx with h | h | h | h <;> omega
    · simp [leBytes32]
      omega
  · intro argv o a fd h1 h2 h3 h4 h5 h6 h7 h8 h9
    rw [run_eight argv o h1 h2 h3 h4 h5 h6 h7 h8 h9]
    simp [setupTrace]

/-- Witness for the line-encoding theorem at concrete inputs. -/
theorem line_encoding_transfer_payload_witness :
    (leBytes32 9600).foldr (fun x a => x + 256 * a) 0 = 9600 ∧
    Event.controlTransfer 0x21 0x20 0 0 encoding 7 0 ∈ (run argv0 oracle0 8).trace := by
  refine ⟨(line_encoding_transfer_payload.2.2.2.1 9600 (by decide)).2.2.2, ?_⟩
  exact line_encoding_transfer_payload.2.2.2.2 argv0 oracle0 "5" 5 rfl rfl
    (by decide) (by decide) (by decide) (by decide) (by decide) (by decide) (by decide)

/-- C3: after both interfaces are claimed, the first control transfer is
the line-state one (request type 0x21, request 0x22, value DTR|RTS = 3,
index 0, no data, no timeout); a negative result exits with that code,
prints an error and the line-encoding transfer is never issued; otherwise
the line-encoding transfer follows immediately and the trace holds exactly
those two control transfers in that order; a negative encoding result also
exits with its code after an error message, and two non-negative results
continue into the transfer loop. -/
theorem control_transfer_order_and_aborts (argv : List String) (o : Oracle)
    (a : String) (fd : Int)
    (h1 : argv[1]? = some a) (h2 : sscanfD a = some fd)
    (h3 : 0 ≤ o.setOptionRet) (h4 : 0 ≤ o.initRet) (h5 : 0 ≤ o.wrapRet)
    (h6 : 0 ≤ o.claimRet 0) (h7 : 0 ≤ o.claimRet 1) :
    ((run argv o 6).trace.filter Event.isCtrl = []) ∧
    ((run argv o 7).trace.filter Event.isCtrl =
      [Event.controlTransfer 0x21 0x22 3 0 [] 0 0]) ∧
    (o.ctrlLineStateRet < 0 →
      (run argv o 8).pc = PC.done o.ctrlLineStateRet ∧
      Event.printErr "Error during control transfer" ∈ (run argv o 7).trace ∧
      (∀ n, Event.controlTransfer 0x21 0x20 0 0 encoding 7 0 ∉ (run argv o n).trace)) ∧
    (0 ≤ o.ctrlLineStateRet →
      ((run argv o 8).trace.filter Event.isCtrl =
        [Event.controlTransfer 0x21 0x22 3 0 [] 0 0,
         Event.controlTransfer 0x21 0x20 0 0 encoding 7 0]) ∧
      (o.ctrlLineEncodingRet < 0 →
        (run argv o 9).pc = PC.done o.ctrlLineEncodingRet ∧
        Event.printErr "Error during control transfer" ∈ (run argv o 8).trace) ∧
      (0 ≤ o.ctrlLineEncodingRet →
        (run argv o 8).pc = PC.loop 0 ∧
        ∀ i, (run argv o (8 + i)).trace.filter Event.isCtrl =
          [Event.controlTransfer 0x21 0x22 3 0 [] 0 0,
           Event.controlTransfer 0x21 0x20 0 0 encoding 7 0])) := by
  refine ⟨?_, ?_, ?_, ?_⟩
  · rw [run_six argv o h1 h2 h3 h4 h5 h6 h7]
    simp [List.filter_append, claimEvents_filter_ctrl, Event.isCtrl]
  · rcases lt_or_le o.ctrlLineStateRet 0 with h8 | h8
    · rw [run_seven_stateFail argv o h1 h2 h3 h4 h5 h6 h7 h8]
      simp [List.filter_append, claimEvents_filter_ctrl, Event.isCtrl]
    · rw [run_seven argv o h1 h2 h3 h4 h5 h6 h7 h8]
      simp [List.filter_append, claimEvents_filter_ctrl, Event.isCtrl]
  · intro h8
    have hfail := run_eight_stateFail argv o h1 h2 h3 h4 h5 h6 h7 h8
    refine ⟨by rw [hfail], ?_, ?_⟩
    · rw [run_seven_stateFail argv o h1 h2 h3 h4 h5 h6 h7 h8]
      simp
    · refine event_never argv o 8 o.ctrlLineStateRet (by rw [hfail]) ?_
      rw [hfail]
      simp [enc_not_in_claimEvents o 0, enc_not_in_claimEvents o 1]
  · intro h8
    refine ⟨?_, ?_, ?_⟩
    · rcases lt_or_le o.ctrlLineEncodingRet 0 with h9 | h9
      · rw [run_eight_encFail argv o h1 h2 h3 h4 h5 h6 h7 h8 h9]
        simp [List.filter_append, claimEvents_filter_ctrl, Event.isCtrl]
      · rw [run_eight argv o h1 h2 h3 h4 h5 h6 h7 h8 h9]
        simp [setupTrace, List.filter_append, claimEvents_filter_ctrl, Event.isCtrl]
    · intro h9
      refine ⟨by rw [run_nine_encFail argv o h1 h2 h3 h4 h5 h6 h7 h8 h9], ?_⟩
      rw [run_eight_encFail argv o h1 h2 h3 h4 h5 h6 h7 h8 h9]
      simp
    · intro h9
      refine ⟨by rw [run_eight argv o h1 h2 h3 h4 h5 h6 h7 h8 h9], ?_⟩
      intro i
      rw [run_loop_state argv o h1 h2 h3 h4 h5 h6 h7 h8 h9 i]
      simp [setupTrace, List.filter_append, claimEvents_filter_ctrl,
        loopTrace_filter_ctrl, Event.isCtrl]

/-- Witness for the control-transfer-order theorem: an all-successful
concrete run issues exactly the two control transfers. -/
theorem control_transfer_order_witness :
    (run argv0 oracle0 8).trace.filter Event.isCtrl =
      [Event.controlTransfer 0x21 0x22 3 0 [] 0 0,
       Event.controlTransfer 0x21 0x20 0 0 encoding 7 0] :=
  ((control_transfer_order_and_aborts argv0 oracle0 "5" 5 rfl rfl
    (by decide) (by decide) (by decide) (by decide) (by decide)).2.2.2
    (by decide)).1

/-- C4: a wrap failure exits with the (negative, hence non-zero) wrap
error code and the run never contains an interface claim, a control
transfer or a bulk transfer; a failure claiming interface 0 or interface 1
exits with that claim error code and the run never contains a control
transfer (so neither line-state nor line-encoding is attempted). -/
theorem setup_failure_prevents_later_stages (argv : List String) (o : Oracle)
    (a : String) (fd : Int)
    (h1 : argv[1]? = some a) (h2 : sscanfD a = some fd)
    (h3 : 0 ≤ o.setOptionRet) (h4 : 0 ≤ o.initRet) :
    (o.wrapRet < 0 →
      (run argv o 5).pc = PC.done o.wrapRet ∧ o.wrapRet ≠ 0 ∧
      (∀ n, (run argv o n).trace.filter Event.isClaim = []) ∧
      (∀ n, (run argv o n).trace.filter Event.isCtrl = []) ∧
      (∀ n, (run argv o n).trace.filter Event.isBulk = [])) ∧
    (0 ≤ o.wrapRet → o.claimRet 0 < 0 →
      (run argv o 6).pc = PC.done (o.claimRet 0) ∧
      (∀ n, (run argv o n).trace.filter Event.isCtrl = [])) ∧
    (0 ≤ o.wrapRet → 0 ≤ o.claimRet 0 → o.claimRet 1 < 0 →
      (run argv o 7).pc = PC.done (o.claimRet 1) ∧
      (∀ n, (run argv o n).trace.filter Event.isCtrl = [])) := by
  refine ⟨?_, ?_, ?_⟩
  · intro h5
    have hfin := run_five_wrapFail argv o h1 h2 h3 h4 h5
    refine ⟨by rw [hfin], by omega, ?_, ?_, ?_⟩
    · exact filter_never argv o 5 o.wrapRet (by rw [hfin]) Event.isClaim (by rw [hfin]; rfl)
    · exact filter_never argv o 5 o.wrapRet (by rw [hfin]) Event.isCtrl (by rw [hfin]; rfl)
    · exact filter_never argv o 5 o.wrapRet (by rw [hfin]) Event.isBulk (by rw [hfin]; rfl)
  · intro h5 h6
    have hfin := run_six_claimFail0 argv o h1 h2 h3 h4 h5 h6
    refine ⟨by rw [hfin], ?_⟩
    refine filter_never argv o 6 (o.claimRet 0) (by rw [hfin]) Event.isCtrl ?_
    rw [hfin]
    simp [List.filter_append, claimEvents_filter_ctrl, Event.isCtrl]
  · intro h5 h6 h7
    have hfin := run_seven_claimFail1 argv o h1 h2 h3 h4 h5 h6 h7
    refine ⟨by rw [hfin], ?_⟩
    refine filter_never argv o 7 (o.claimRet 1) (by rw [hfin]) Event.isCtrl ?_
    rw [hfin]
    simp [List.filter_append, claimEvents_filter_ctrl, Event.isCtrl]

/-- Witness for the setup-failure theorem: with a concrete environment
whose claim calls fail with -5, the process exits with status -5 and no
control transfer ever appears. -/
theorem setup_failure_witness :
    (run argv0 oracleClaimFail 6).pc = PC.done (-5) ∧
    (run argv0 oracleClaimFail 9).trace.filter Event.isCtrl = [] := by
  have h := (setup_failure_prevents_later_stages argv0 oracleClaimFail "5" 5 rfl rfl
    (by decide) (by decide)).2.1 (by decide) (by decide)
  exact ⟨h.1, h.2 9⟩

/-- C5: the detach result plays no role in the run (any detach oracle
yields the same machine states); for each interface the claim call is
always reached — also when a detach was attempted — and only a negative
claim result moves the machine to the exit path. -/
theorem detach_failure_not_fatal (argv : List String) (o : Oracle)
    (a : String) (fd : Int)
    (h1 : argv[1]? = some a) (h2 : sscanfD a = some fd)
    (h3 : 0 ≤ o.setOptionRet) (h4 : 0 ≤ o.initRet) (h5 : 0 ≤ o.wrapRet) :
    (∀ (d : Nat → Int) (n : Nat), run argv { o with detachRet := d } n = run argv o n) ∧
    Event.claimInterface 0 ∈ (run argv o 5).trace ∧
    (o.kernelActiveRet 0 ≠ 0 → Event.detachKernelDriver 0 ∈ (run argv o 5).trace) ∧
    ((run argv o 5).pc = if o.claimRet 0 < 0 then PC.out else PC.claim 1) ∧
    (o.claimRet 0 < 0 → (run argv o 6).pc = PC.done (o.claimRet 0)) ∧
    (0 ≤ o.claimRet 0 →
      Event.claimInterface 1 ∈ (run argv o 6).trace ∧
      (o.kernelActiveRet 1 ≠ 0 → Event.detachKernelDriver 1 ∈ (run argv o 6).trace) ∧
      ((run argv o 6).pc = if o.claimRet 1 < 0 then PC.out else PC.ctrlLineState) ∧
      (o.claimRet 1 < 0 → (run argv o 7).pc = PC.done (o.claimRet 1))) := by
  have detachIrrel : ∀ (d : Nat → Int) (n : Nat),
      run argv { o with detachRet := d } n = run argv o n := by
    intro d n
    induction n with
    | zero => rfl
    | succ n ih =>
      show step argv { o with detachRet := d } (run argv { o with detachRet := d } n) = _
      rw [ih, step_detach_irrel]
      rfl
  refine ⟨detachIrrel, ?_, ?_, ?_, ?_, ?_⟩
  · rcases lt_or_le (o.claimRet 0) 0 with h6 | h6
    · rw [run_five_claimFail0 argv o h1 h2 h3 h4 h5 h6]
      simp [List.mem_append, claim_mem_claimEvents o 0]
    · rw [run_five argv o h1 h2 h3 h4 h5 h6]
      simp [List.mem_append, claim_mem_claimEvents o 0]
  · intro hk
    rcases lt_or_le (o.claimRet 0) 0 with h6 | h6
    · rw [run_five_claimFail0 argv o h1 h2 h3 h4 h5 h6]
      simp [List.mem_append, detach_mem_claimEvents o 0 hk]
    · rw [run_five argv o h1 h2 h3 h4 h5 h6]
      simp [List.mem_append, detach_mem_claimEvents o 0 hk]
  · rcases lt_or_le (o.claimRet 0) 0 with h6 | h6
    · rw [run_five_claimFail0 argv o h1 h2 h3 h4 h5 h6, if_pos h6]
    · rw [run_five argv o h1 h2 h3 h4 h5 h6, if_neg (Int.not_lt.mpr h6)]
  · intro h6
    rw [run_six_claimFail0 argv o h1 h2 h3 h4 h5 h6]
  · intro h6
    refine ⟨?_, ?_, ?_, ?_⟩
    · rcases lt_or_le (o.claimRet 1) 0 with h7 | h7
      · rw [run_six_claimFail1 argv o h1 h2 h3 h4 h5 h6 h7]
        simp [List.mem_append, claim_mem_claimEvents o 1]
      · rw [run_six argv o h1 h2 h3 h4 h5 h6 h7]
        simp [List.mem_append, claim_mem_claimEvents o 1]
    · intro hk
      rcases lt_or_le (o.claimRet 1) 0 with h7 | h7
      · rw [run_six_claimFail1 argv o h1 h2 h3 h4 h5 h6 h7]
        simp [List.mem_append, detach_mem_claimEvents o 1 hk]
      · rw [run_six argv o h1 h2 h3 h4 h5 h6 h7]
        simp [List.mem_append, detach_mem_claimEvents o 1 hk]
    · rcases lt_or_le (o.claimRet 1) 0 with h7 | h7
      · rw [run_six_claimFail1 argv o h1 h2 h3 h4 h5 h6 h7, if_pos h7]
      · rw [run_six argv o h1 h2 h3 h4 h5 h6 h7, if_neg (Int.not_lt.mpr h7)]
    · intro h7
      rw [run_seven_claimFail1 argv o h1 h2 h3 h4 h5 h6 h7]

/-- Witness for the detach theorem: concrete run in which the claim of
interface 0 is reached and succeeds. -/
theorem detach_failure_not_fatal_witness :
    Event.claimInterface 0 ∈ (run argv0 oracle0 5).trace ∧
    (run argv0 oracle0 5).pc = if oracle0.claimRet 0 < 0 then PC.out else PC.claim 1 := by
  have h := detach_failure_not_fatal argv0 oracle0 "5" 5 rfl rfl
    (by decide) (by decide) (by decide)
  exact ⟨h.2.1, h.2.2.2.1⟩

/-- C6: in every iteration of the transfer loop, a read timeout makes the
iteration print the timeout message, any other negative read result logs
to stderr, a negative write result logs to stderr, and in all cases the
machine is again at the loop head for the next iteration — the process
never reaches an exit state from inside the loop. -/
theorem read_timeout_loop_continues (argv : List String) (o : Oracle)
    (a : String) (fd : Int)
    (h1 : argv[1]? = some a) (h2 : sscanfD a = some fd)
    (h3 : 0 ≤ o.setOptionRet) (h4 : 0 ≤ o.initRet) (h5 : 0 ≤ o.wrapRet)
    (h6 : 0 ≤ o.claimRet 0) (h7 : 0 ≤ o.claimRet 1)
    (h8 : 0 ≤ o.ctrlLineStateRet) (h9 : 0 ≤ o.ctrlLineEncodingRet) :
    ∀ i, (run argv o (8 + i)).pc = PC.loop i ∧
      (run argv o (8 + i + 1)).pc = PC.loop (i + 1) ∧
      (run argv o (8 + i + 1)).trace = (run argv o (8 + i)).trace ++ iterEvents o i ∧
      (o.readRet i = LIBUSB_ERROR_TIMEOUT →
        Event.printOut "timeout" ∈ iterEvents o i) ∧
      (o.readRet i < 0 → o.readRet i ≠ LIBUSB_ERROR_TIMEOUT →
        Event.printErr "Error while waiting for char" ∈ iterEvents o i) ∧
      (o.writeRet i < 0 → Event.printErr "Error while sending char" ∈ iterEvents o i) ∧
      (∀ c, (run argv o (8 + i)).pc ≠ PC.done c) := by
  intro i
  have hl := run_loop_state argv o h1 h2 h3 h4 h5 h6 h7 h8 h9
  have hi := hl i
  have hi1 := hl (i + 1)
  refine ⟨by rw [hi], ?_, ?_, ?_, ?_, ?_, by rw [hi]; simp⟩
  · rw [show (8 : Nat) + i + 1 = 8 + (i + 1) from rfl, hi1]
  · rw [show (8 : Nat) + i + 1 = 8 + (i + 1) from rfl, hi1, hi]
    simp [loopTrace]
  · intro ht
    simp [iterEvents, read_chars, write_char, ht]
  · intro hneg hne
    simp [iterEvents, read_chars, write_char, hne, hneg]
  · intro hw
    simp [iterEvents, read_chars, write_char, hw]

/-- Witness for the loop-continuation theorem: a concrete run whose reads
always time out prints the timeout message and is still looping. -/
theorem read_timeout_loop_continues_witness :
    Event.printOut "timeout" ∈ iterEvents oracleTimeout 0 ∧
    (run argv0 oracleTimeout 9).pc = PC.loop 1 := by
  have h := read_timeout_loop_continues argv0 oracleTimeout "5" 5 rfl rfl
    (by decide) (by decide) (by decide) (by decide) (by decide) (by decide) (by decide) 0
  exact ⟨h.2.2.2.1 rfl, h.2.1⟩

/-- C8: every loop iteration consists of exactly one outbound single-byte
bulk transfer of the byte 't' (116) to endpoint 0x02 with no timeout,
then exactly one inbound bulk read of up to 64 bytes from endpoint 0x82
with a 1000 ms timeout, and ends with the one-second pause; at the loop
head of every index the machine continues to the next index and never
reaches an exit state. -/
theorem loop_iteration_shape (argv : List String) (o : Oracle)
    (a : String) (fd : Int)
    (h1 : argv[1]? = some a) (h2 : sscanfD a = some fd)
    (h3 : 0 ≤ o.setOptionRet) (h4 : 0 ≤ o.initRet) (h5 : 0 ≤ o.wrapRet)
    (h6 : 0 ≤ o.claimRet 0) (h7 : 0 ≤ o.claimRet 1)
    (h8 : 0 ≤ o.ctrlLineStateRet) (h9 : 0 ≤ o.ctrlLineEncodingRet) :
    ∀ i, (iterEvents o i).filter Event.isBulk =
        [Event.bulkOut ep_out_addr [116] 0, Event.bulkIn ep_in_addr 64 1000] ∧
      (∃ pre, iterEvents o i = pre ++ [Event.sleepSec 1]) ∧
      (run argv o (8 + i)).pc = PC.loop i ∧
      (run argv o (8 + i + 1)).pc = PC.loop (i + 1) ∧
      (∀ c, (run argv o (8 + i)).pc ≠ PC.done c) := by
  intro i
  have hl := run_loop_state argv o h1 h2 h3 h4 h5 h6 h7 h8 h9
  have hi := hl i
  have hi1 := hl (i + 1)
  refine ⟨iter_filter_bulk o i,
    ⟨write_char (o.writeRet i) 116 ++ (read_chars (o.readRet i) (o.readLen i) 64).1 ++
      [Event.bufStore (read_chars (o.readRet i) (o.readLen i) 64).2,
       Event.printOut "Received"], by simp [iterEvents]⟩,
    by rw [hi], ?_, by rw [hi]; simp⟩
  rw [show (8 : Nat) + i + 1 = 8 + (i + 1) from rfl, hi1]

/-- Witness for the loop-shape theorem at the concrete all-success run. -/
theorem loop_iteration_shape_witness :
    (iterEvents oracle0 0).filter Event.isBulk =
      [Event.bulkOut ep_out_addr [116] 0, Event.bulkIn ep_in_addr 64 1000] ∧
    (run argv0 oracle0 9).pc = PC.loop 1 := by
  have h := loop_iteration_shape argv0 oracle0 "5" 5 rfl rfl
    (by decide) (by decide) (by decide) (by decide) (by decide) (by decide) (by decide) 0
  exact ⟨h.1, h.2.2.2.1⟩

/-- C7 counterexample: when `libusb_set_option` fails with the library
error code -99, the process exits with status 1 — the library error code
is not propagated, contradicting the claim that every setup failure
(library initialization included) propagates the library's error code. -/
theorem init_error_exit_status_cex :
    oracleBadOpt.setOptionRet = -99 ∧
    (run argv0 oracleBadOpt 2).pc = PC.done 1 ∧
    (∀ n, (run argv0 oracleBadOpt n).pc ≠ PC.done (-99)) := by
  have h2 : run argv0 oracleBadOpt 2 =
      ⟨PC.done 1, [Event.setOption, Event.printErr "Error setting libusb option"],
        5, 0, false⟩ := by rfl
  refine ⟨rfl, by rw [h2], ?_⟩
  intro n
  match n with
  | 0 => decide
  | 1 => decide
  | n + 2 =>
    rw [show n + 2 = 2 + n from by omega, run_done_absorb argv0 oracleBadOpt 2 1 (by rw [h2]) n, h2]
    decide

/-- C7 amended: the exit status is 1 on a usage error and on a
`libusb_set_option` or `libusb_init` failure, while wrap, claim and
control-transfer failures propagate the library's (negative) error code
as the exit status; the clean-exit status stays unreachable. -/
theorem exit_status_amended (argv : List String) (o : Oracle) :
    (argv.length < 1 →
      (run argv o 1).pc = PC.done 1 ∧ Event.printOut "usage" ∈ (run argv o 1).trace) ∧
    (∀ a, argv[1]? = some a → sscanfD a = none →
      (run argv o 1).pc = PC.done 1 ∧ Event.printOut "usage" ∈ (run argv o 1).trace) ∧
    (∀ a fd, argv[1]? = some a → sscanfD a = some fd →
      (o.setOptionRet < 0 → (run argv o 2).pc = PC.done 1) ∧
      (0 ≤ o.setOptionRet → o.initRet < 0 → (run argv o 3).pc = PC.done 1) ∧
      (0 ≤ o.setOptionRet → 0 ≤ o.initRet → o.wrapRet < 0 →
        (run argv o 5).pc = PC.done o.wrapRet) ∧
      (0 ≤ o.setOptionRet → 0 ≤ o.initRet → 0 ≤ o.wrapRet → o.claimRet 0 < 0 →
        (run argv o 6).pc = PC.done (o.claimRet 0)) ∧
      (0 ≤ o.setOptionRet → 0 ≤ o.initRet → 0 ≤ o.wrapRet → 0 ≤ o.claimRet 0 →
        o.claimRet 1 < 0 → (run argv o 7).pc = PC.done (o.claimRet 1)) ∧
      (0 ≤ o.setOptionRet → 0 ≤ o.initRet → 0 ≤ o.wrapRet → 0 ≤ o.claimRet 0 →
        0 ≤ o.claimRet 1 → o.ctrlLineStateRet < 0 →
        (run argv o 8).pc = PC.done o.ctrlLineStateRet) ∧
      (0 ≤ o.setOptionRet → 0 ≤ o.initRet → 0 ≤ o.wrapRet → 0 ≤ o.claimRet 0 →
        0 ≤ o.claimRet 1 → 0 ≤ o.ctrlLineStateRet → o.ctrlLineEncodingRet < 0 →
        (run argv o 9).pc = PC.done o.ctrlLineEncodingRet)) := by
  refine ⟨?_, ?_, ?_⟩
  · intro hlen
    constructor
    · show (step argv o init0).pc = PC.done 1
      simp [step, init0, hlen]
    · show Event.printOut "usage" ∈ (step argv o init0).trace
      simp [step, init0, hlen]
  · intro a ha hnone
    have hlen := not_lt_one_of_get1 ha
    constructor
    · show (step argv o init0).pc = PC.done 1
      simp [step, init0, hlen, ha, hnone]
    · show Event.printOut "usage" ∈ (step argv o init0).trace
      simp [step, init0, hlen, ha, hnone]
  · intro a fd ha hfd
    refine ⟨?_, ?_, ?_, ?_, ?_, ?_, ?_⟩
    · intro hneg
      show (step argv o (run argv o 1)).pc = _
      rw [run_one argv o ha hfd]
      simp [step, hneg]
    · intro hso hneg
      show (step argv o (run argv o 2)).pc = _
      rw [run_two argv o ha hfd hso]
      simp [step, hneg]
    · intro hso hin hneg
      rw [run_five_wrapFail argv o ha hfd hso hin hneg]
    · intro hso hin hw hneg
      rw [run_six_claimFail0 argv o ha hfd hso hin hw hneg]
    · intro hso hin hw hc0 hneg
      rw [run_seven_claimFail1 argv o ha hfd hso hin hw hc0 hneg]
    · intro hso hin hw hc0 hc1 hneg
      rw [run_eight_stateFail argv o ha hfd hso hin hw hc0 hc1 hneg]
    · intro hso hin hw hc0 hc1 hst hneg
      rw [run_nine_encFail argv o ha hfd hso hin hw hc0 hc1 hst hneg]

/-- Witness for the amended exit-status theorem: a concrete non-numeric
argument exits with status 1 after printing usage. -/
theorem exit_status_amended_witness :
    (run ["./usbtest", "x"] oracle0 1).pc = PC.done 1 ∧
    Event.printOut "usage" ∈ (run ["./usbtest", "x"] oracle0 1).trace :=
  (exit_status_amended ["./usbtest", "x"] oracle0).2.1 "x" rfl rfl

/-- C9: the interface-release statement after the transfer loop is dead:
no run of any length under any environment ever sits at it or emits a
release event; the loop head always advances to the next loop head; and
the device handle is closed only on the fatal-error path, i.e. when the
machine has exited with the failing call's negative return code. -/
theorem release_unreachable_close_only_on_error (argv : List String)
    (o : Oracle) (n : Nat) :
    (run argv o n).pc ≠ PC.afterLoop ∧
    (∀ i, Event.releaseInterface i ∉ (run argv o n).trace) ∧
    (∀ i, (run argv o n).pc = PC.loop i → (run argv o (n + 1)).pc = PC.loop (i + 1)) ∧
    (Event.closeDevice ∈ (run argv o n).trace →
      (run argv o n).pc = PC.done (run argv o n).rc ∧ (run argv o n).rc < 0) := by
  obtain ⟨hA, hR, _, hC⟩ := inv_run argv o n
  refine ⟨hA, hR, ?_, hC⟩
  intro i h
  show (step argv o (run argv o n)).pc = _
  simp [step, h]

/-- Witness for the dead-release theorem: concrete failing run in which
the device is closed, with negative exit status, and no release event. -/
theorem release_unreachable_witness :
    Event.closeDevice ∈ (run argv0 oracleClaimFail 6).trace ∧
    (run argv0 oracleClaimFail 6).pc = PC.done (run argv0 oracleClaimFail 6).rc ∧
    (run argv0 oracleClaimFail 6).rc < 0 ∧
    (∀ i, Event.releaseInterface i ∉ (run argv0 oracleClaimFail 6).trace) := by
  have h := release_unreachable_close_only_on_error argv0 oracleClaimFail 6
  have hm : Event.closeDevice ∈ (run argv0 oracleClaimFail 6).trace := by decide
  exact ⟨hm, (h.2.2.2 hm).1, (h.2.2.2 hm).2, h.2.1⟩

/-- C10: the claim says the index of the null-terminating store
`buf[len] = 0` stays within 0..64 even when the read times out.  On the
code, a timed-out `read_chars` returns -1 and the iteration stores at
index -1, outside the buffer (undefined behaviour in C).  A successful
read of at most 64 bytes does stay within bounds (last conjuncts). -/
theorem buf_store_index_out_of_bounds_on_timeout :
    (read_chars LIBUSB_ERROR_TIMEOUT 0 64).2 = -1 ∧
    Event.bufStore (-1) ∈ iterEvents oracleTimeout 0 ∧
    Event.bufStore (-1) ∈ (run argv0 oracleTimeout 9).trace ∧
    Event.printOut "timeout" ∈ (run argv0 oracleTimeout 9).trace ∧
    ¬ (0 ≤ (-1 : Int) ∧ (-1 : Int) ≤ 64) ∧
    Event.bufStore 0 ∈ iterEvents oracle0 0 ∧
    (0 : Int) ≤ 0 ∧ (0 : Int) ≤ 64 := by
  refine ⟨by decide, by decide, ?_, ?_, by decide, by decide, by decide, by decide⟩
  · decide
  · decide

end UsbTest
